import Mathlib

/-!
Verification of the `Control` process supervisor of the confman repository
(`src/control/__init__.py`) against its natural-language specification.

The Python class is shallowly embedded: the object's attributes become the
`Control` structure, every external invocation (`pidof`, `ps`, `kill`,
`subprocess.Popen`) is answered by an oracle `Sys` describing the OS state,
and each method becomes a function in a monad `M` that threads the oracle,
an invocation counter (one tick per external command, standing for the
passage of time), the list of external invocations performed, and a Python
exception channel (`subprocess.CalledProcessError` is caught by the code;
`TypeError` from passing `None` where a string is required is not).
PIDs are modelled as `Nat` (the code keeps them as decimal strings and
sorts them with `key=int`; nothing in the claims depends on the string
representation).
-/

deriving instance DecidableEq for Except

namespace Confman

/-- Python exceptions that can escape the embedded methods. -/
inductive PyErr
  | typeError
  | valueError
  | indexError
deriving DecidableEq

/-- One external command invocation performed by the supervisor. -/
inductive Call
  | pidof (names : List String)
  | ps
  | kill (sig : String) (pids : List Nat)
  | spawn (cmd : List String)
deriving DecidableEq

/-- Value returned by `stop()`: the Python code returns either the integer
status constant `STOPPED` or the boolean result of `is_running()`. -/
inductive StopRet
  | status (s : Int)
  | bool (b : Bool)
deriving DecidableEq

/-- Argument of `get_pidof`: Python passes a `str`, a `list`, or `None`. -/
inductive PyNames
  | str (s : String)
  | list (l : List String)
  | pyNone

/-- The attributes of a constructed `Control` instance
(`Control.__init__`, src/control/__init__.py lines 18-67). -/
structure Control where
  pidof_path : Option String := some "pidof"
  kill_path : Option String := some "kill"
  ps_path : Option String := some "ps"
  cwd : Option String := none
  cmd : Option (List String) := none
  start_cmd : List String := []
  stop_cmd : Option (List String) := none
  name : Option String := none
  ex_name : Option String := none
  ps_name : Option String := none
  children : List String := []
deriving DecidableEq

/-- Oracle for the OS state: outcome of each external command at each tick.
`pidofOut t ns = none` models a non-zero exit of the lookup utility
(`subprocess.CalledProcessError`); likewise for `psOut`.  `killOk t sig pids`
is whether the kill utility exited 0. -/
structure Sys where
  pidofOut : Nat → List String → Option (List Nat)
  psOut : Nat → Option (List (Nat × Nat))
  killOk : Nat → String → List Nat → Bool

/-- Status constants of the Python class. -/
def RUNNING : Int := 1

/-- Status constant `JEOPARDY = 0`. -/
def JEOPARDY : Int := 0

/-- Status constant `STOPPED = -1`. -/
def STOPPED : Int := -1

/-- The method monad: a `Control` instance, an OS oracle and a tick produce
an exception-or-value, the external calls performed, and the next tick. -/
def M (α : Type) : Type :=
  Control → Sys → Nat → Except PyErr α × List Call × Nat

/-- Monadic return for `M`. -/
def mPure {α : Type} (a : α) : M α := fun _ _ t => (.ok a, [], t)

/-- Monadic bind for `M`: sequence two computations, accumulating the call
trace; a raised exception aborts the continuation. -/
def mBind {α β : Type} (x : M α) (f : α → M β) : M β := fun c s t =>
  match x c s t with
  | (.ok a, cs1, t1) =>
    match f a c s t1 with
    | (r, cs2, t2) => (r, cs1 ++ cs2, t2)
  | (.error e, cs1, t1) => (.error e, cs1, t1)

instance : Monad M where
  pure := mPure
  bind := mBind

/-- Read the instance attributes (Python `self`). -/
def getCtl : M Control := fun c _ t => (.ok c, [], t)

/-- Raise a Python `TypeError` (e.g. `None` used as a command token). -/
def raiseTE {α : Type} : M α := fun _ _ t => (.error .typeError, [], t)

/-- Invoke the pid-lookup utility with the given names. -/
def runPidof (ns : List String) : M (Option (List Nat)) :=
  fun _ s t => (.ok (s.pidofOut t ns), [.pidof ns], t + 1)

/-- Invoke the process-table dump utility (`ps ax -o pid,ppid`). -/
def runPs : M (Option (List (Nat × Nat))) :=
  fun _ s t => (.ok (s.psOut t), [.ps], t + 1)

/-- Invoke the signal utility. -/
def runKill (sig : String) (pids : List Nat) : M Bool :=
  fun _ s t => (.ok (s.killOk t sig pids), [.kill sig pids], t + 1)

/-- Spawn a command via the fork/Popen double indirection of `_run`;
the parent always returns `True` immediately. -/
def runSpawn (cmd : List String) : M Bool :=
  fun _ _ t => (.ok true, [.spawn cmd], t + 1)

/-- Helper for `pySplit`: scan the characters, accumulating the current
word reversed, emitting it at each whitespace boundary. -/
def pySplitAux : List Char → List Char → List String
  | [], acc => if acc.isEmpty then [] else [String.mk acc.reverse]
  | ch :: rest, acc =>
    if ch = ' ' ∨ ch = '\t' ∨ ch = '\n' then
      (if acc.isEmpty then [] else [String.mk acc.reverse]) ++ pySplitAux rest []
    else pySplitAux rest (ch :: acc)

/-- Python `str.split()`: split on whitespace, dropping empty fields. -/
def pySplit (s : String) : List String := pySplitAux s.data []

/-- Python set-then-list: deduplicate, keeping first occurrences
(only emptiness and membership of the result matter downstream). -/
def pyDedup (l : List Nat) : List Nat :=
  l.foldl (fun acc x => if acc.contains x then acc else acc ++ [x]) []

/-- Insert into a numerically sorted list. -/
def insertSorted (x : Nat) : List Nat → List Nat
  | [] => [x]
  | y :: ys => if x ≤ y then x :: y :: ys else y :: insertSorted x ys

/-- Numeric sort, modelling Python `sorted(..., key=int)`. -/
def sortNat (l : List Nat) : List Nat := l.foldr insertSorted []

/-- Python `sorted(list(set(l)), key=int)`. -/
def sortedDedup (l : List Nat) : List Nat := sortNat (pyDedup l)

/-- How `get_pidof(self.ps_name)` receives the attribute: a string, or
`None` if the attribute was never set. -/
def toNames : Option String → PyNames
  | some s => .str s
  | none => .pyNone

/-- Normalise the argument of `get_pidof` the way the method does:
a string is `split()`; a list is used as is; `None` cannot be unpacked
into the command line (`TypeError`). -/
def namesOf : PyNames → Option (List String)
  | .str s => some (pySplit s)
  | .list l => some l
  | .pyNone => none

/-- `Control.get_pidof` (lines 225-239): run the lookup utility on the
names; a non-zero exit is caught and yields `[]`; a missing utility
(`pidof_path is None`) raises `TypeError`, which the method does not catch. -/
def get_pidof (x : PyNames) : M (List Nat) := do
  let c ← getCtl
  match namesOf x with
  | none => raiseTE
  | some ns =>
    match c.pidof_path with
    | none => raiseTE
    | some _ => do
      let r ← runPidof ns
      match r with
      | some pids => pure pids
      | none => pure []

/-- `Control.get_child_pids` (lines 255-277), embedded exactly as written:
note the guard `if len(pids) > 0: return child_pids` returns the *empty*
accumulator whenever the input is non-empty, so the table is only scanned
for an empty input (for which the membership filter finds nothing). -/
def get_child_pids (pids : List Nat) : M (List Nat) := do
  if pids.length > 0 then pure []
  else do
    let c ← getCtl
    match c.ps_path with
    | none => raiseTE
    | some _ => do
      let r ← runPs
      match r with
      | none => pure []
      | some rows =>
        pure ((rows.filter (fun row => pids.contains row.2)).map (fun row => row.1))

/-- `Control.kill` (lines 309-328): run the signal utility; a non-zero exit
is caught and reported as `False`; a missing utility raises `TypeError`.
(All call sites pass lists, so the `isinstance(pids, str)` branch is dead.) -/
def kill (pids : List Nat) (sig : String) : M Bool := do
  let c ← getCtl
  match c.kill_path with
  | none => raiseTE
  | some _ => runKill sig pids

/-- `Control.any_alive` (lines 300-307): `False` for an empty pid set
without invoking anything, otherwise a signal-0 probe via `kill`. -/
def any_alive (pids : List Nat) : M Bool := do
  if pids.length = 0 then pure false
  else kill pids "-0"

/-- `Control.get_status` (lines 196-216), decision structure as written. -/
def get_status : M Int := do
  let c ← getCtl
  let pids ← get_pidof (toNames c.ps_name)
  let named_cpids ← get_pidof (.list c.children)
  if pids.length = 0 then
    if named_cpids.length = 0 then pure STOPPED else pure JEOPARDY
  else
    if named_cpids.length > 0 then
      if c.children.length ≠ named_cpids.length then pure JEOPARDY
      else pure RUNNING
    else pure RUNNING

/-- `Control.is_running` (lines 218-223). -/
def is_running : M Bool := do
  let s ← get_status
  pure (s != STOPPED)

/-- The escalation signal list of `stop` (line 189), in source order. -/
def stopSignals : List String := ["-SIGTERM", "-SIGKILL", "-SIGKILL"]

/-- The escalation loop of `stop` (lines 189-193): before each signal,
probe liveness and return `STOPPED` as soon as nothing is alive; after
exhausting the list, fall through to `is_running()` (line 194). -/
def stopLoop (pids : List Nat) : List String → M StopRet
  | [] => do
    let r ← is_running
    pure (.bool r)
  | sig :: rest => do
    let a ← any_alive pids
    if a then do
      let _ ← kill pids sig
      stopLoop pids rest
    else pure (.status STOPPED)

/-- `Control.stop` (lines 164-194). With a configured `stop_cmd`, spawn it
and poll up to three times for `STOPPED`, else fall through to
`is_running()`.  Without one, gather primary pids, named-child pids and
table-discovered child pids, return `STOPPED` if nothing is running,
otherwise signal the child batch, then the primary batch, then run the
escalation loop over the combined set. -/
def stop : M StopRet := do
  let c ← getCtl
  match c.stop_cmd with
  | some sc => do
    let _ ← runSpawn sc
    let s1 ← get_status
    if s1 = STOPPED then pure (.status STOPPED)
    else do
      let s2 ← get_status
      if s2 = STOPPED then pure (.status STOPPED)
      else do
        let s3 ← get_status
        if s3 = STOPPED then pure (.status STOPPED)
        else do
          let r ← is_running
          pure (.bool r)
  | none => do
    let ppids ← get_pidof (toNames c.ps_name)
    let named_cpids ← get_pidof (.list c.children)
    let cpids ← get_child_pids (pyDedup (ppids ++ named_cpids))
    let child_pids := sortedDedup (named_cpids ++ cpids)
    let pids := sortedDedup (ppids ++ child_pids)
    if pids.length = 0 then pure (.status STOPPED)
    else do
      let _ ← if child_pids.length > 0 then kill child_pids "-SIGTERM"
              else pure true
      let _ ← if ppids.length > 0 then kill ppids "-SIGTERM"
              else pure true
      stopLoop pids stopSignals

/-- The confirmation polling of `start` (lines 158-162): up to three
`RUNNING` checks, then one final status query. -/
def startPoll : M Int := do
  let s1 ← get_status
  if s1 = RUNNING then pure RUNNING
  else do
    let s2 ← get_status
    if s2 = RUNNING then pure RUNNING
    else do
      let s3 ← get_status
      if s3 = RUNNING then pure RUNNING
      else get_status

/-- `Control.start` (lines 151-162): spawn only when the observed status is
`STOPPED`, then poll for confirmation. -/
def start : M Int := do
  let c ← getCtl
  let s0 ← get_status
  if s0 = STOPPED then do
    let _ ← runSpawn c.start_cmd
    startPoll
  else startPoll

/-- Two `start()` calls in succession with no intervening `stop()`. -/
def twoStarts : M Int := do
  let _ ← start
  start

/-! ### The constructor and the executable resolver -/

/-- Filesystem oracle for `__init__`: `shutil.which`, `os.path.exists`,
`os.path.isdir`, `os.getcwd`, `os.path.realpath`. -/
structure FS where
  which : String → Option String
  pathExists : String → Bool
  isDir : String → Bool
  getcwd : String
  realpath : String → String

/-- The `children` field of a specification: Python accepts a whitespace
separated string or a list. -/
inductive ChildrenField
  | str (s : String)
  | list (l : List String)

/-- A process specification as handed to `Control.__init__`
(absent mapping keys are `none`). -/
structure PSpec where
  cwd : Option String := none
  cmd : Option (List String) := none
  start_cmd : Option (List String) := none
  stop_cmd : Option (List String) := none
  name : Option String := none
  ex_name : Option String := none
  ps_name : Option String := none
  children : ChildrenField := .list []

/-- Helper for `basename`: keep the characters after the last slash. -/
def basenameAux : List Char → List Char → List Char
  | [], acc => acc.reverse
  | ch :: rest, acc =>
    if ch = '/' then basenameAux rest []
    else basenameAux rest (ch :: acc)

/-- Python `os.path.basename` for POSIX paths. -/
def basename (s : String) : String := String.mk (basenameAux s.data [])

/-- Python `os.path.join` for two POSIX components: an absolute second
component wins; otherwise concatenate with a single slash. -/
def pyJoin (a b : String) : String :=
  match b.data with
  | '/' :: _ => b
  | _ =>
    if a.data.isEmpty then b
    else if a.data.getLast? = some '/' then a ++ b
    else a ++ "/" ++ b

/-- `Control._validate_cmd` (lines 69-86): `None`/empty commands yield
`None`; otherwise `cmd[0]` is kept as-is when `which` resolves it, is
rewritten to `./basename` when it exists relative to `cwd` (or the
current directory), and otherwise is replaced by the — possibly
non-existing — absolute resolved path (the `ex_path is None` check at
line 81 can never fire in that branch). -/
def validate_cmd (fs : FS) (cwd : Option String) (cmd : Option (List String)) :
    Option (List String) :=
  match cmd with
  | none => none
  | some [] => none
  | some (c0 :: rest) =>
    match fs.which c0 with
    | some _ => some (c0 :: rest)
    | none =>
      let cwd1 := match cwd with
        | some d => d
        | none => fs.getcwd
      let exPath := fs.realpath (pyJoin cwd1 c0)
      if fs.pathExists exPath then some (pyJoin "." (basename exPath) :: rest)
      else some (exPath :: rest)

/-- `Control._make_start_cmd` (lines 88-110): returns the start command
and the (possibly rewritten) `ex_name`, or `None` on failure.  Failure
happens exactly when `ex_name` is `None` or — the inverted existence
check at line 96 — when `ex_name` already exists as a path; a name that
exists nowhere still succeeds with the absolute resolved path. -/
def make_start_cmd (fs : FS) (cwd : Option String) (exn : Option String) :
    Option (List String × String) :=
  match exn with
  | none => none
  | some en =>
    if fs.pathExists en then none
    else
      match fs.which en with
      | some _ => some ([en], en)
      | none =>
        let cwd1 := match cwd with
          | some d => d
          | none => fs.getcwd
        let exPath := fs.realpath (pyJoin cwd1 en)
        if fs.pathExists exPath then
          some ([pyJoin "." (basename exPath)], pyJoin "." (basename exPath))
        else some ([exPath], en)

/-- `Control.__init__` (lines 18-67): sanitise `cwd`, normalise
`children`, derive the start command (via `_make_start_cmd` when no
non-empty `cmd`/`start_cmd` was supplied, via `_validate_cmd` otherwise),
validate `stop_cmd`, raise `ValueError` when no start command could be
determined, and default `ps_name`/`name`.  The utility paths are the
`shutil.which` lookups of lines 28-30. -/
def initCtl (fs : FS) (p : PSpec) : Except PyErr Control :=
  let cwd : Option String := match p.cwd with
    | some d =>
      if fs.pathExists d = false then none
      else if fs.isDir d = false then none
      else some d
    | none => none
  let children : List String := match p.children with
    | .str s => pySplit s
    | .list l => l
  let ex_name0 : Option String := match p.ex_name with
    | some e => some e
    | none => p.name
  let start_cmd0 : Option (List String) := match p.start_cmd with
    | some sc => some sc
    | none => p.cmd
  let resolved : Except PyErr (List String × String) :=
    match start_cmd0 with
    | none =>
      match make_start_cmd fs cwd ex_name0 with
      | some (sc, ex) => .ok (sc, ex)
      | none => .error .valueError
    | some [] =>
      match make_start_cmd fs cwd ex_name0 with
      | some (sc, ex) => .ok (sc, ex)
      | none => .error .valueError
    | some (c0 :: rest) =>
      match validate_cmd fs cwd (some (c0 :: rest)) with
      | some (e0 :: es) => .ok (e0 :: es, e0)
      | some [] => .error .indexError
      | none => .error .typeError
  match resolved with
  | .error e => .error e
  | .ok (scmd, ex1) =>
    let stop_cmd1 : Option (List String) := match p.stop_cmd with
      | some sc => validate_cmd fs cwd (some sc)
      | none => none
    let psn : String := match p.ps_name with
      | some ps => ps
      | none => basename ex1
    let nm : String := match p.name with
      | some n => n
      | none => psn
    .ok { pidof_path := fs.which "pidof",
          kill_path := fs.which "kill",
          ps_path := fs.which "ps",
          cwd := cwd,
          cmd := p.cmd,
          start_cmd := scmd,
          stop_cmd := stop_cmd1,
          name := some nm,
          ex_name := some ex1,
          ps_name := some psn,
          children := children }

/-! ### Spawn counting, for the `start` idempotence claim -/

/-- Whether a call is a process spawn (`_run`). -/
def Call.isSpawn : Call → Bool
  | .spawn _ => true
  | _ => false

/-- Number of spawns in a call trace. -/
def spawnCount (cs : List Call) : Nat := (cs.filter Call.isSpawn).length

/-- A computation that never spawns a process, whatever the instance,
oracle and tick. -/
def SpawnFree {α : Type} (m : M α) : Prop :=
  ∀ c s t, spawnCount (m c s t).2.1 = 0

/-! ### Concrete controls and OS oracles used by the claims -/

/-- A constructed control supervising primary `svc` with one named child
`worker` and no `stop_cmd`. -/
def ctlSvc : Control := { ps_name := some "svc", children := ["worker"] }

/-- A constructed control supervising `svc` with no named children. -/
def ctlPlain : Control := { ps_name := some "svc" }

/-- A control on a host where the pid-lookup utility is missing
(`shutil.which('pidof')` returned `None`). -/
def ctlNoPidof : Control := { ps_name := some "svc", pidof_path := none }

/-- A control with a configured `stop_cmd`. -/
def ctlSC : Control := { ps_name := some "svc", stop_cmd := some ["shutdown"] }

/-- Oracle where every utility invocation fails with a non-zero exit. -/
def sysDown : Sys :=
  { pidofOut := fun _ _ => none, psOut := fun _ => none, killOk := fun _ _ _ => false }

/-- Oracle where the signal utility always succeeds and lookups find
nothing. -/
def sysAlive : Sys :=
  { pidofOut := fun _ _ => none, psOut := fun _ => none, killOk := fun _ _ _ => true }

/-- Oracle for C1: the process table holds one pid for the primary `svc`
and no pid for the named child `worker`. -/
def sysC1 : Sys :=
  { pidofOut := fun _ ns => if ns = ["svc"] then some [3] else none,
    psOut := fun _ => some [], killOk := fun _ _ _ => true }

/-- Oracle for C2: the lookup utility finds nothing, and the process-table
dump has exactly one row, pid 2 with parent pid 1. -/
def sysC2 : Sys :=
  { pidofOut := fun _ _ => none, psOut := fun _ => some [(2, 1)], killOk := fun _ _ _ => true }

/-- Family of oracles for `stop` without `stop_cmd`: `pUp`/`cUp` say whether
the primary/named child is initially in the table (pids 3 and 7), `a1 a2 a3`
are the three liveness-probe answers of the escalation loop, and `fin` is
whether the processes are back in the table for the final `is_running`
query.  Probe ticks fall in `≤ 4`, `5..6`, `≥ 7` on every control path. -/
def sysStop (pUp cUp a1 a2 a3 fin : Bool) : Sys :=
  { pidofOut := fun t ns =>
      if ns = ["svc"] then
        (if t = 0 then (if pUp then some [3] else none)
         else (if fin then some [3] else none))
      else if ns = ["worker"] then
        (if t = 1 then (if cUp then some [7] else none)
         else (if fin then some [7] else none))
      else none,
    psOut := fun _ => some [],
    killOk := fun t sig _ =>
      if sig = "-0" then (if t ≤ 4 then a1 else if t ≤ 6 then a2 else a3)
      else true }

/-- Variant of `sysStop true true _ _ _ _` whose process-table dump lists
pid 9 as a live OS-level descendant of the primary pid 3. -/
def sysC6 (a1 a2 a3 fin : Bool) : Sys :=
  { sysStop true true a1 a2 a3 fin with psOut := fun _ => some [(9, 3)] }

/-- Family of oracles for `stop` with a configured `stop_cmd`: `d1 d2 d3`
say whether the status poll observes `STOPPED` at rounds 1..3, `fin`
whether the primary is in the table for the final `is_running` query. -/
def sysSC (d1 d2 d3 fin : Bool) : Sys :=
  { pidofOut := fun t ns =>
      if ns = ["svc"] then
        (if t ≤ 2 then (if d1 then none else some [3])
         else if t ≤ 4 then (if d2 then none else some [3])
         else if t ≤ 6 then (if d3 then none else some [3])
         else (if fin then some [3] else none))
      else none,
    psOut := fun _ => none,
    killOk := fun _ _ _ => true }

/-! ### Expected behaviour of `stop` on the `sysStop` family -/

/-- Call trace of the escalation loop as the code performs it: a signal-0
probe before each round, stopping at the first dead probe; the signal
sequence is `-SIGTERM`, `-SIGKILL`, `-SIGKILL`. -/
def escTrace (pids : List Nat) (a1 a2 a3 : Bool) : List Call :=
  [.kill "-0" pids] ++
  (if a1 then
    [.kill "-SIGTERM" pids, .kill "-0" pids] ++
    (if a2 then
      [.kill "-SIGKILL" pids, .kill "-0" pids] ++
      (if a3 then [.kill "-SIGKILL" pids] else [])
     else [])
   else [])

/-- The combined pid set of the `sysStop` family. -/
def expPids : Bool → Bool → List Nat
  | true, true => [3, 7]
  | true, false => [3]
  | false, true => [7]
  | false, false => []

/-- Expected full call trace of `stop` on the `sysStop` family: the two
pid lookups; if nothing was found, one table scan and no signal at all;
otherwise the named-children batch, then the primary batch, then the
escalation rounds, then (only if every probe saw life) the final status
queries of `is_running`. -/
def expStopTrace (pUp cUp a1 a2 a3 : Bool) : List Call :=
  [.pidof ["svc"], .pidof ["worker"]] ++
  (if pUp = false ∧ cUp = false then [.ps]
   else
     (if cUp then [.kill "-SIGTERM" [7]] else []) ++
     (if pUp then [.kill "-SIGTERM" [3]] else []) ++
     escTrace (expPids pUp cUp) a1 a2 a3 ++
     (if a1 ∧ a2 ∧ a3 then [.pidof ["svc"], .pidof ["worker"]] else []))

/-- Expected return value of `stop` on the `sysStop` family: the integer
status constant `STOPPED` whenever the method observed the unit stopped,
and the boolean `is_running()` result only when every escalation round
was exhausted. -/
def expStopRes (pUp cUp a1 a2 a3 fin : Bool) : Except PyErr StopRet :=
  if pUp = false ∧ cUp = false then .ok (.status STOPPED)
  else if a1 ∧ a2 ∧ a3 then .ok (.bool fin)
  else .ok (.status STOPPED)

/-- The signals of the escalation rounds: kill invocations aimed at the
full combined pid set, liveness probes excluded. -/
def escalationRounds (tr : List Call) (pids : List Nat) : List String :=
  tr.filterMap fun c =>
    match c with
    | .kill sig ps => if ps = pids ∧ sig ≠ "-0" then some sig else none
    | _ => none

/-- `true` when a call is not an invocation of the signal utility. -/
def notKill : Call → Bool
  | .kill _ _ => false
  | _ => true

/-- `true` when a call does not signal the given pid. -/
def missesPid (p : Nat) : Call → Bool
  | .kill _ ps => !(ps.contains p)
  | _ => true

/-- Oracle for the C7 witness: the primary `svc` enters the process table
at tick 2 (right after the spawn of the first `start` call) and stays. -/
def sysC7 : Sys :=
  { pidofOut := fun t ns => if ns = ["svc"] ∧ 2 ≤ t then some [3] else none,
    psOut := fun _ => none,
    killOk := fun _ _ _ => true }

/-! ### Claims C8 and C9: construction and name resolution -/

/-- Filesystem where nothing exists, nothing is on the PATH and no
utility is installed; the current directory is `/home/user`. -/
def fs0 : FS :=
  { which := fun _ => none, pathExists := fun _ => false, isDir := fun _ => false,
    getcwd := "/home/user", realpath := fun s => s }

/-- The control that `__init__` builds on `fs0` from `{name: "ghost"}`:
construction succeeds although `ghost` resolves to no executable
anywhere, with the non-existing absolute path as the start command. -/
def ctlGhost : Control :=
  { pidof_path := none, kill_path := none, ps_path := none, cwd := none,
    cmd := none, start_cmd := ["/home/user/ghost"], stop_cmd := none,
    name := some "ghost", ex_name := some "ghost", ps_name := some "ghost",
    children := [] }

/-- Filesystem for the C9 counterexample: `tool` is not on the PATH, but
`/work/tool` exists under the current directory `/work`. -/
def fs9 : FS :=
  { which := fun _ => none, pathExists := fun s => s == "/work/tool",
    isDir := fun _ => false, getcwd := "/work", realpath := fun s => s }

/-- The control built on `fs9` from `{name: "tool"}`: the resolver
rewrites `ex_name` to `./tool`. -/
def ctl9 : Control :=
  { pidof_path := none, kill_path := none, ps_path := none, cwd := none,
    cmd := none, start_cmd := ["./tool"], stop_cmd := none,
    name := some "tool", ex_name := some "./tool", ps_name := some "tool",
    children := [] }

/-- Filesystem for the C9 witness: only `svc` is on the PATH. -/
def fsPath : FS :=
  { which := fun s => if s == "svc" then some "/bin/svc" else none,
    pathExists := fun _ => false, isDir := fun _ => false,
    getcwd := "/work", realpath := fun s => s }

theorem bind_eq_mBind {α β : Type} (x : M α) (f : α → M β) : x >>= f = mBind x f := rfl

theorem spawnCount_append (a b : List Call) :
    spawnCount (a ++ b) = spawnCount a + spawnCount b := by
  simp [spawnCount, List.filter_append]

theorem spawnFree_bind {α β : Type} {x : M α} {f : α → M β}
    (hx : SpawnFree x) (hf : ∀ a, SpawnFree (f a)) : SpawnFree (x >>= f) := by
  intro c s t
  show spawnCount ((mBind x f) c s t).2.1 = 0
  rcases hxe : x c s t with ⟨r, cs1, t1⟩
  have hx1 : spawnCount cs1 = 0 := by
    have h := hx c s t; rw [hxe] at h; exact h
  cases r with
  | error e => simp [mBind, hxe, hx1]
  | ok a =>
    rcases hfe : f a c s t1 with ⟨r2, cs2, t2⟩
    have hf1 : spawnCount cs2 = 0 := by
      have h := hf a c s t1; rw [hfe] at h; exact h
    simp [mBind, hxe, hfe, spawnCount_append, hx1, hf1]

theorem spawnFree_pure {α : Type} (a : α) : SpawnFree (pure a : M α) :=
  fun _ _ _ => rfl

theorem spawnFree_getCtl : SpawnFree getCtl := fun _ _ _ => rfl

theorem spawnFree_raiseTE {α : Type} : SpawnFree (raiseTE : M α) := fun _ _ _ => rfl

theorem spawnFree_runPidof (ns : List String) : SpawnFree (runPidof ns) :=
  fun _ _ _ => rfl

theorem spawnFree_runPs : SpawnFree runPs := fun _ _ _ => rfl

theorem spawnFree_runKill (sig : String) (pids : List Nat) :
    SpawnFree (runKill sig pids) := fun _ _ _ => rfl

theorem spawnFree_ite {α : Type} (P : Prop) [Decidable P] {a b : M α}
    (ha : SpawnFree a) (hb : SpawnFree b) : SpawnFree (if P then a else b) := by
  by_cases h : P <;> simp [h] <;> assumption

theorem spawnFree_get_pidof (x : PyNames) : SpawnFree (get_pidof x) := by
  apply spawnFree_bind spawnFree_getCtl
  intro c
  cases hn : namesOf x with
  | none => exact spawnFree_raiseTE
  | some ns =>
    cases hp : c.pidof_path with
    | none => exact spawnFree_raiseTE
    | some p =>
      apply spawnFree_bind (spawnFree_runPidof ns)
      intro r
      cases r with
      | none => exact spawnFree_pure []
      | some pids => exact spawnFree_pure pids

theorem spawnFree_get_status : SpawnFree get_status := by
  apply spawnFree_bind spawnFree_getCtl
  intro c
  apply spawnFree_bind (spawnFree_get_pidof _)
  intro pids
  apply spawnFree_bind (spawnFree_get_pidof _)
  intro named
  apply spawnFree_ite
  · exact spawnFree_ite _ (spawnFree_pure _) (spawnFree_pure _)
  · apply spawnFree_ite
    · exact spawnFree_ite _ (spawnFree_pure _) (spawnFree_pure _)
    · exact spawnFree_pure _

theorem spawnFree_startPoll : SpawnFree startPoll := by
  apply spawnFree_bind spawnFree_get_status
  intro s1
  apply spawnFree_ite _ (spawnFree_pure _)
  apply spawnFree_bind spawnFree_get_status
  intro s2
  apply spawnFree_ite _ (spawnFree_pure _)
  apply spawnFree_bind spawnFree_get_status
  intro s3
  exact spawnFree_ite _ (spawnFree_pure _) spawnFree_get_status

theorem spawnCount_cons_spawn (cmd : List String) (cs : List Call) :
    spawnCount (.spawn cmd :: cs) = spawnCount cs + 1 := by
  simp [spawnCount, List.filter_cons, Call.isSpawn]

/-- `start` performs a spawn exactly when its initial status observation
is `STOPPED` (and at most one in any case). -/
theorem start_spawnCount (c : Control) (s : Sys) (t : Nat) :
    spawnCount ((start c s t).2.1) =
      (if (get_status c s t).1 = .ok STOPPED then 1 else 0) := by
  rcases hg : get_status c s t with ⟨r, cs1, t1⟩
  have h1 : spawnCount cs1 = 0 := by
    have h := spawnFree_get_status c s t; rw [hg] at h; exact h
  cases r with
  | error e =>
    have hrun : start c s t = (.error e, cs1, t1) := by
      simp [start, bind_eq_mBind, mBind, getCtl, hg]
    rw [hrun]
    simpa using h1
  | ok s0 =>
    by_cases hs : s0 = STOPPED
    · subst hs
      rcases hp : startPoll c s (t1 + 1) with ⟨r2, cs2, t2⟩
      have h2 : spawnCount cs2 = 0 := by
        have h := spawnFree_startPoll c s (t1 + 1); rw [hp] at h; exact h
      have hrun : start c s t = (r2, cs1 ++ ([.spawn c.start_cmd] ++ cs2), t2) := by
        simp [start, bind_eq_mBind, mBind, getCtl, runSpawn, hg, hp]
      rw [hrun]
      simp [spawnCount_append, h1, h2, spawnCount_cons_spawn]
    · rcases hp : startPoll c s t1 with ⟨r2, cs2, t2⟩
      have h2 : spawnCount cs2 = 0 := by
        have h := spawnFree_startPoll c s t1; rw [hp] at h; exact h
      have hrun : start c s t = (r2, cs1 ++ cs2, t2) := by
        simp [start, bind_eq_mBind, mBind, getCtl, hg, hs, hp]
      rw [hrun]
      simp [spawnCount_append, h1, h2, hs]

/-! ### Claims C1, C2, C3, C4, C5, C6, C10 -/

/-- C1: with children `["worker"]`, one pid for the primary and zero pids
for the named child, `get_status()` returns `RUNNING`, not `JEOPARDY`.
The claim (and the method's own docstring, which requires every named
child to be present for `RUNNING`) says this state is `JEOPARDY`: the
nested guard `if len(named_cpids) > 0` skips the completeness check
entirely when no named child is found, so the code returns `RUNNING`. -/
theorem claim_C1_missing_children_reported_running :
    (get_status ctlSvc sysC1 0).1 = .ok RUNNING ∧
    (get_status ctlSvc sysC1 0).1 ≠ .ok JEOPARDY := by
  exact ⟨rfl, by decide⟩

/-- C2: `get_child_pids(["1"])` returns `[]` without ever invoking the
process-table dump (empty call trace), although the table itself (row
pid 2, ppid 1, second conjunct) contains a child of parent 1 that the
claim — and the method's own docstring — require in the result.  The
guard `if len(pids) > 0: return child_pids` is inverted. -/
theorem claim_C2_child_scan_dead_for_nonempty_input :
    get_child_pids [1] ctlPlain sysC2 0 = (.ok [], [], 0) ∧
    (((sysC2.psOut 0).getD []).filter
      (fun row => [1].contains row.2)).map (fun row => row.1) = [2] := by
  exact ⟨rfl, rfl⟩

/-- C3 counterexample: with primary and child both present and every
liveness probe answering alive, the escalation rounds over the combined
pid set `[3, 7]` send `-SIGTERM, -SIGKILL, -SIGKILL` — not
`-SIGTERM, -SIGTERM, -SIGKILL` as the claim states. -/
theorem claim_C3_counterexample :
    escalationRounds ((stop ctlSvc (sysStop true true true true true true) 0).2.1) [3, 7]
      = ["-SIGTERM", "-SIGKILL", "-SIGKILL"] ∧
    escalationRounds ((stop ctlSvc (sysStop true true true true true true) 0).2.1) [3, 7]
      ≠ ["-SIGTERM", "-SIGTERM", "-SIGKILL"] := by
  exact ⟨rfl, by decide⟩

/-- C3 as amended: within one `stop()` call without `stop_cmd`, the
escalation loop sends signals in the order `-SIGTERM` first, then
`-SIGKILL`, then `-SIGKILL` again (see `escTrace`), each round preceded
by a `kill -0` liveness probe, and the loop ends with `STOPPED` as soon
as a probe finds no target alive (see `expStopRes`). -/
theorem claim_C3_amended_escalation_term_kill_kill :
    ∀ pUp cUp a1 a2 a3 fin : Bool,
      (stop ctlSvc (sysStop pUp cUp a1 a2 a3 fin) 0).2.1 =
        expStopTrace pUp cUp a1 a2 a3 ∧
      (stop ctlSvc (sysStop pUp cUp a1 a2 a3 fin) 0).1 =
        expStopRes pUp cUp a1 a2 a3 fin := by
  intro pUp cUp a1 a2 a3 fin
  cases pUp <;> cases cUp <;> cases a1 <;> cases a2 <;> cases a3 <;> cases fin <;>
    exact ⟨rfl, rfl⟩

/-- C4 counterexample: `stop()` on an already-STOPPED specification (no
pid found anywhere) returns the integer status constant `STOPPED = -1`
— a truthy value in Python — not the boolean `False` the claim
requires for the stopped outcome. -/
theorem claim_C4_counterexample :
    stop ctlSvc (sysStop false false true true true false) 0 =
      (.ok (.status (-1)), [.pidof ["svc"], .pidof ["worker"], .ps], 3) ∧
    (stop ctlSvc (sysStop false false true true true false) 0).1 ≠
      .ok (.bool false) := by
  exact ⟨rfl, by decide⟩

/-- C4 as amended: `stop()` returns the integer constant `STOPPED` (-1,
not the boolean `False`) whenever it observes the unit stopped — nothing
found to kill, a probe reporting all targets dead, or a successful
`stop_cmd` poll — and returns `is_running()` as a boolean only when the
escalation rounds or the `stop_cmd` polls are exhausted; it never raises
on utility failure, and in the already-STOPPED case the trace contains
no invocation of the signal utility. -/
theorem claim_C4_amended_stop_return_values :
    (∀ pUp cUp a1 a2 a3 fin : Bool,
      (stop ctlSvc (sysStop pUp cUp a1 a2 a3 fin) 0).1 =
        expStopRes pUp cUp a1 a2 a3 fin) ∧
    ((stop ctlSvc (sysStop false false true true true false) 0).2.1.all notKill
      = true) ∧
    (∀ d1 d2 d3 fin : Bool,
      (stop ctlSC (sysSC d1 d2 d3 fin) 0).1 =
        (if d1 ∨ d2 ∨ d3 then .ok (.status STOPPED) else .ok (.bool fin))) := by
  refine ⟨?_, rfl, ?_⟩
  · intro pUp cUp a1 a2 a3 fin
    cases pUp <;> cases cUp <;> cases a1 <;> cases a2 <;> cases a3 <;> cases fin <;> rfl
  · intro d1 d2 d3 fin
    cases d1 <;> cases d2 <;> cases d3 <;> cases fin <;> rfl

/-- C5 counterexample: with the lookup utility missing from the system
(`pidof_path is None`), `get_pidof` raises `TypeError` (only
`CalledProcessError` is caught), rather than returning an empty result
as the claim states for "any failure". -/
theorem claim_C5_counterexample :
    get_pidof (.str "svc") ctlNoPidof sysDown 0 = (.error .typeError, [], 0) ∧
    (get_pidof (.str "svc") ctlNoPidof sysDown 0).1 ≠ .ok [] := by
  exact ⟨rfl, by decide⟩

/-- C5 as amended: for any input (single name or list of names),
`get_pidof` returns an empty result instead of raising when the utility
matches nothing or exits non-zero; but when the utility is missing from
the system the call raises `TypeError` instead of returning empty. -/
theorem claim_C5_amended_empty_on_nonzero_exit :
    ∀ (ns : List String) (s : String),
      get_pidof (.list ns) ctlPlain sysDown 0 = (.ok [], [.pidof ns], 1) ∧
      get_pidof (.str s) ctlPlain sysDown 0 = (.ok [], [.pidof (pySplit s)], 1) ∧
      get_pidof (.list ns) ctlNoPidof sysDown 0 = (.error .typeError, [], 0) :=
  fun _ _ => ⟨rfl, rfl, rfl⟩

/-- C6 counterexample: the process-table dump of `sysC6` lists pid 9 as a
live OS-level descendant of the primary pid 3, yet no kill invocation of
the whole `stop()` call ever targets pid 9 (second conjunct): discovered
descendants are not signaled last — they are never signaled at all,
because `get_child_pids` returns `[]` for every non-empty parent list. -/
theorem claim_C6_counterexample :
    (stop ctlSvc (sysC6 false true true false) 0).2.1 =
      [.pidof ["svc"], .pidof ["worker"], .kill "-SIGTERM" [7],
       .kill "-SIGTERM" [3], .kill "-0" [3, 7]] ∧
    ((stop ctlSvc (sysC6 false true true false) 0).2.1.all (missesPid 9)) = true := by
  exact ⟨rfl, rfl⟩

/-- C6 as amended: within one `stop()` call without `stop_cmd`, the named
children are signaled first (batch `[7]`), then the primary (batch
`[3]`), and the escalation rounds then signal the full combined set —
so the primary is never signaled before its named children; discovered
OS-level descendants (pid 9 in the table) are never signaled at all. -/
theorem claim_C6_amended_children_before_primary :
    ∀ a1 a2 a3 fin : Bool,
      (stop ctlSvc (sysC6 a1 a2 a3 fin) 0).2.1 = expStopTrace true true a1 a2 a3 ∧
      ((stop ctlSvc (sysC6 a1 a2 a3 fin) 0).2.1.all (missesPid 9)) = true := by
  intro a1 a2 a3 fin
  cases a1 <;> cases a2 <;> cases a3 <;> cases fin <;> exact ⟨rfl, rfl⟩

/-- `start` never spawns more than once per call. -/
theorem start_spawnCount_le_one (c : Control) (s : Sys) (t : Nat) :
    spawnCount ((start c s t).2.1) ≤ 1 := by
  rw [start_spawnCount]
  split <;> omega

/-- C7: `start()` spawns exactly when the observed status is `STOPPED`
(first conjunct); consequently, if the status observed at the second of
two successive `start()` calls is not `STOPPED` — the spec's "second call
is a no-op given non-STOPPED status" — the two calls together spawn at
most one process (second conjunct). -/
theorem claim_C7_start_spawns_only_when_stopped :
    ∀ (c : Control) (s : Sys) (t : Nat),
      spawnCount ((start c s t).2.1) =
        (if (get_status c s t).1 = .ok STOPPED then 1 else 0) ∧
      ((get_status c s ((start c s t).2.2)).1 ≠ .ok STOPPED →
        spawnCount ((twoStarts c s t).2.1) ≤ 1) := by
  intro c s t
  refine ⟨start_spawnCount c s t, ?_⟩
  intro h
  rcases h1 : start c s t with ⟨r1, cs1, t1⟩
  rw [h1] at h
  cases r1 with
  | error e =>
    have hrun : twoStarts c s t = (.error e, cs1, t1) := by
      simp [twoStarts, bind_eq_mBind, mBind, h1]
    rw [hrun]
    have hle := start_spawnCount_le_one c s t
    rw [h1] at hle
    exact hle
  | ok v =>
    rcases h2 : start c s t1 with ⟨r2, cs2, t2⟩
    have hz : spawnCount cs2 = 0 := by
      have hh := start_spawnCount c s t1
      rw [h2] at hh
      have h' : (get_status c s t1).1 ≠ Except.ok STOPPED := h
      simp [h'] at hh
      exact hh
    have hrun : twoStarts c s t = (r2, cs1 ++ cs2, t2) := by
      simp [twoStarts, bind_eq_mBind, mBind, h1, h2]
    rw [hrun]
    have hle := start_spawnCount_le_one c s t
    rw [h1] at hle
    simpa [spawnCount_append, hz] using hle

/-- C7 witness: on `sysC7` the second call observes `RUNNING`, so the two
successive `start()` calls spawn at most once. -/
theorem claim_C7_witness :
    spawnCount ((twoStarts ctlPlain sysC7 0).2.1) ≤ 1 :=
  (claim_C7_start_spawns_only_when_stopped ctlPlain sysC7 0).2 (by decide)

/-- C10: `any_alive` on the empty pid set returns `False` with an empty
call trace — the kill utility is not invoked at all — while on a
non-empty pid set it issues exactly the signal-0 probe. -/
theorem claim_C10_any_alive_empty_no_probe :
    (∀ (c : Control) (s : Sys) (t : Nat), any_alive [] c s t = (.ok false, [], t)) ∧
    (∀ (p : Nat) (ps : List Nat),
      any_alive (p :: ps) ctlPlain sysAlive 0 = (.ok true, [.kill "-0" (p :: ps)], 1)) :=
  ⟨fun _ _ _ => rfl, fun _ _ => rfl⟩

/-- C8 counterexample: on a filesystem where `ghost` is not on the PATH,
does not exist, and does not exist under the working directory either —
so none of `name`/`cmd`/`ex_name` resolves to an executable — the
constructor does **not** raise: it succeeds, with the non-existing
absolute path `/home/user/ghost` as start command (`_make_start_cmd`
line 102 keeps the unresolved `realpath` result). -/
theorem claim_C8_counterexample :
    initCtl fs0 { name := some "ghost" } = .ok ctlGhost ∧
    fs0.which "ghost" = none ∧
    fs0.pathExists "ghost" = false ∧
    fs0.pathExists "/home/user/ghost" = false :=
  ⟨rfl, rfl, rfl, rfl⟩

/-- C8 as amended: construction raises `ValueError` when the
specification supplies no non-empty `cmd`/`start_cmd` and neither a
`name` nor an `ex_name` (first conjunct) — but an unresolvable name is
not enough to make it fail, see the counterexample.  Conversely, once
construction succeeds, `ps_name` and `name` are both set, i.e. not
`None` (second conjunct). -/
theorem claim_C8_amended_construction :
    (∀ (fs : FS) (p : PSpec), p.cmd = none → p.start_cmd = none →
      p.name = none → p.ex_name = none →
      initCtl fs p = .error .valueError) ∧
    (∀ (fs : FS) (p : PSpec) (c : Control), initCtl fs p = .ok c →
      c.ps_name.isSome = true ∧ c.name.isSome = true) := by
  constructor
  · intro fs p h1 h2 h3 h4
    simp [initCtl, make_start_cmd, h1, h2, h3, h4]
  · intro fs p c h
    simp only [initCtl] at h
    split at h
    · exact absurd h (by simp)
    · rw [Except.ok.injEq] at h
      subst h
      simp

/-- C8 witness: the empty specification fails with `ValueError`, and the
successfully constructed `ctlGhost` has `ps_name` and `name` set. -/
theorem claim_C8_witness :
    initCtl fs0 {} = .error .valueError ∧
    (ctlGhost.ps_name.isSome = true ∧ ctlGhost.name.isSome = true) :=
  ⟨claim_C8_amended_construction.1 fs0 {} rfl rfl rfl rfl,
   claim_C8_amended_construction.2 fs0 { name := some "ghost" } ctlGhost rfl⟩


/-- C9 counterexample: for the specification `{name: "tool"}` on a
filesystem where `tool` resolves only relative to the working directory,
construction succeeds but the resolved `ex_name` is `./tool`, not the
supplied name `tool` (the repository's own test `test_properties_cwd_b`
documents this rewrite). -/
theorem claim_C9_counterexample :
    initCtl fs9 { name := some "tool" } = .ok ctl9 ∧
    ctl9.ex_name ≠ some "tool" ∧
    ctl9.name = some "tool" :=
  ⟨rfl, by decide, rfl⟩

/-- C9 as amended: for a specification supplying only a `name`, when the
name does not itself exist as a path and is found on the PATH (and
equals its own basename), the resolved `ex_name` and `ps_name` both
equal the name (first conjunct); when the name is not on the PATH but
exists relative to the current directory, `ex_name` is rewritten to
`./basename(realpath(cwd/name))` — in general different from the name —
and `ps_name` is that rewritten value's basename (second conjunct). -/
theorem claim_C9_amended_resolution :
    ∀ (fs : FS) (nm : String), fs.pathExists nm = false →
      (∀ w : String, fs.which nm = some w → basename nm = nm →
        initCtl fs { name := some nm } =
          .ok { pidof_path := fs.which "pidof", kill_path := fs.which "kill",
                ps_path := fs.which "ps", cwd := none, cmd := none,
                start_cmd := [nm], stop_cmd := none, name := some nm,
                ex_name := some nm, ps_name := some nm, children := [] }) ∧
      (fs.which nm = none →
        fs.pathExists (fs.realpath (pyJoin fs.getcwd nm)) = true →
        initCtl fs { name := some nm } =
          .ok { pidof_path := fs.which "pidof", kill_path := fs.which "kill",
                ps_path := fs.which "ps", cwd := none, cmd := none,
                start_cmd := [pyJoin "." (basename (fs.realpath (pyJoin fs.getcwd nm)))],
                stop_cmd := none, name := some nm,
                ex_name := some (pyJoin "." (basename (fs.realpath (pyJoin fs.getcwd nm)))),
                ps_name := some (basename (pyJoin "." (basename (fs.realpath (pyJoin fs.getcwd nm))))),
                children := [] }) := by
  intro fs nm h1
  constructor
  · intro w h2 h3
    simp [initCtl, make_start_cmd, h1, h2, h3]
  · intro h2 h4
    simp [initCtl, make_start_cmd, h1, h2, h4]

/-- C9 witness: on a filesystem with `svc` on the PATH, both resolved
names equal the supplied name. -/
theorem claim_C9_witness :
    initCtl fsPath { name := some "svc" } =
      .ok { pidof_path := none, kill_path := none, ps_path := none,
            cwd := none, cmd := none, start_cmd := ["svc"], stop_cmd := none,
            name := some "svc", ex_name := some "svc", ps_name := some "svc",
            children := [] } :=
  (claim_C9_amended_resolution fsPath "svc" rfl).1 "/bin/svc" rfl rfl

end Confman
